import Mathlib

/-!
# cordeDynamicsWorld: step sequencing and object bookkeeping

A shallow embedding of `src/dev/Corde/cordeDynamicsWorld.cpp` (NTRT, a modified
`btSoftRigidDynamicsWorld` of Bullet 2.82).  The class does no numerics of its own:
it calls a solver, the host rigid-body world and the filament bodies in a fixed
sequence and keeps an array of bodies.  The embedding therefore consists of

* the data the class owns (`m_softBodySolver`, `m_ownsSolver`, `m_cordeObjects`),
* the little of its collaborators' state that the methods write
  (the host's collision-object array, the bodies' solver back-reference),
* a call log (`trace`) to which every call leaving the class is appended.

Scalars (`btScalar`) are exact rationals; pointers are addresses, `0` being null.
-/

namespace Corde

/-! ## Values -/

/-- Bullet's `btScalar`, taken as an exact rational. -/
abbrev btScalar := ℚ

/-- A `cordeSolver*`: the address of a solver object, `0` for the null pointer. -/
abbrev SolverPtr := Nat

/-- A `cordeCollisionObject*`: a filament body, identified by its address. -/
structure cordeCollisionObject where
  addr : Nat
  deriving DecidableEq, Repr

/-- A `btCollisionObject*`: a generic collidable object.  The constructor is the
internal type tag that the runtime type test of `cordeCollisionObject::upcast` reads. -/
inductive btCollisionObject where
  | corde (body : cordeCollisionObject)
  | other (addr : Nat)
  deriving DecidableEq, Repr

/-- Modelled from the spec: `cordeCollisionObject::upcast` (declared in
cordeCollisionObject.h, which is not among the sources), the runtime type test usable
for a safe downcast from a generic collidable-object reference: the body when the
object is a filament body, null otherwise. -/
def cordeCollisionObject.upcast : btCollisionObject → Option cordeCollisionObject
  | .corde body => some body
  | .other _ => none

/-- The calls that leave `cordeDynamicsWorld`, as they are appended to the call log. -/
inductive Event where
  /-- Placement construction `new(ptr) defaultCordeSolver()` on storage obtained from
  `btAlignedAlloc`. -/
  | defaultCordeSolver_new (ptr : SolverPtr)
  /-- Explicit destructor call `solver->~cordeSolver()`. -/
  | cordeSolver_delete (solver : SolverPtr)
  /-- Storage release `btAlignedFree(solver)`. -/
  | btAlignedFree (solver : SolverPtr)
  /-- Host hook `btDiscreteDynamicsWorld::predictUnconstraintMotion(timeStep)`. -/
  | btDiscreteDynamicsWorld_predictUnconstraintMotion (timeStep : btScalar)
  /-- Host hook `btDiscreteDynamicsWorld::internalSingleStepSimulation(timeStep)`. -/
  | btDiscreteDynamicsWorld_internalSingleStepSimulation (timeStep : btScalar)
  /-- Host call `btCollisionWorld::addCollisionObject(object, group, mask)`. -/
  | btCollisionWorld_addCollisionObject (object : btCollisionObject) (group mask : Int)
  /-- Host call `btCollisionWorld::removeCollisionObject(object)`. -/
  | btCollisionWorld_removeCollisionObject (object : btCollisionObject)
  /-- Host call `btDiscreteDynamicsWorld::removeCollisionObject(object)`. -/
  | btDiscreteDynamicsWorld_removeCollisionObject (object : btCollisionObject)
  /-- Solver call `solver->predictMotion(timeStep)`. -/
  | predictMotion (solver : SolverPtr) (timeStep : btScalar)
  /-- Solver call `solver->optimize(bodies)`. -/
  | optimize (solver : SolverPtr) (bodies : List cordeCollisionObject)
  /-- Solver call `solver->checkInitialized()`. -/
  | checkInitialized (solver : SolverPtr)
  /-- Solver call `solver->solveConstraints(dt)`. -/
  | solveConstraints (solver : SolverPtr) (dt : btScalar)
  /-- Solver call `solver->updateSoftBodies(timeStep)`. -/
  | updateSoftBodies (solver : SolverPtr) (timeStep : btScalar)
  /-- Body call `body->setSolver(solver)`. -/
  | setSolver (body : cordeCollisionObject) (solver : SolverPtr)
  /-- Body call `self->defaultCollisionHandler(arg)`. -/
  | defaultCollisionHandler (self arg : cordeCollisionObject)
  deriving DecidableEq

/-- What the world reads back from a solver object through the `cordeSolver`
interface.  The solver is an external collaborator whose state any call may change,
so each answer is a function of the calls logged so far.  `getTimeScale` is a plain
read and is not itself logged. -/
structure cordeSolver where
  checkInitialized : List Event → Bool
  getTimeScale : List Event → btScalar

/-- The solver objects in memory, by address. -/
abbrev SolverMemory := SolverPtr → cordeSolver

/-! ## The container -/

namespace btAlignedObjectArray

variable {α : Type}

/-- Modelled from the spec: `push_back` of the array type of `m_cordeObjects`
(declared in cordeDynamicsWorld.h, which is not among the sources): appends to the
ordered registry. -/
def push_back (m_data : List α) (val : α) : List α :=
  m_data ++ [val]

/-- Drop the last slot: `pop_back` of Bullet's `btAlignedObjectArray`. -/
def pop_back (m_data : List α) : List α :=
  m_data.dropLast

/-- Index of the first element equal to `key`, the size when there is none:
`findLinearSearch` of Bullet's `btAlignedObjectArray`. -/
def findLinearSearch [DecidableEq α] (m_data : List α) (key : α) : Nat :=
  m_data.indexOf key

/-- Exchange the elements at two valid indices: `swap` of Bullet's
`btAlignedObjectArray`. -/
def swap (m_data : List α) (index0 index1 : Nat) : List α :=
  match m_data[index0]?, m_data[index1]? with
  | some a, some b => (m_data.set index0 b).set index1 a
  | _, _ => m_data

/-- Modelled from the spec: `remove(key)` of the array type of `m_cordeObjects`
(declared in cordeDynamicsWorld.h, which is not among the sources).  It removes the
first matching entry by identity and does nothing when the key is absent, as the spec
words it.  The spec does not say how the gap is closed.  The calls the class makes
(`push_back`, `remove(value)`, `size()`, indexing) are those of Bullet's
`btAlignedObjectArray`, the array of the `btSoftRigidDynamicsWorld` this class is a
modified copy of, and the gap is closed the way that container does it (Bullet 2.82):
`findLinearSearch`, then `swap` of the entry found with the last one, then
`pop_back`. -/
def remove [DecidableEq α] (m_data : List α) (key : α) : List α :=
  let findIndex := findLinearSearch m_data key
  if findIndex < m_data.length then
    pop_back (swap m_data findIndex (m_data.length - 1))
  else
    m_data

end btAlignedObjectArray

/-! ## The world -/

/-- State of a `cordeDynamicsWorld` together with what its methods touch outside it. -/
structure cordeDynamicsWorld where
  /-- Host (`btCollisionWorld`) array of generic collidable objects. -/
  m_collisionObjects : List btCollisionObject
  /-- Host broadphase registration of an object: its filter group and mask, if any. -/
  m_broadphaseHandle : btCollisionObject → Option (Int × Int)
  /-- The solver the world steps with. -/
  m_softBodySolver : SolverPtr
  /-- Whether the world allocated the solver and has to release it. -/
  m_ownsSolver : Bool
  /-- The filament bodies, in array order. -/
  m_cordeObjects : List cordeCollisionObject
  /-- The solver back-reference stored in each filament body. -/
  bodySolver : cordeCollisionObject → SolverPtr
  /-- The call log. -/
  trace : List Event

namespace cordeDynamicsWorld

/-- Append calls to the log. -/
def record (w : cordeDynamicsWorld) (es : List Event) : cordeDynamicsWorld :=
  { w with trace := w.trace ++ es }

/-- Constructor `cordeDynamicsWorld(dispatcher, pairCache, constraintSolver,
collisionConfiguration, softBodySolver)`.  `ptr` is the storage that
`btAlignedAlloc(sizeof(defaultCordeSolver),16)` hands out; `bodySolver` is the memory of
the bodies that exist already.  The host starts without collision objects. -/
def new (softBodySolver : SolverPtr) (ptr : SolverPtr)
    (bodySolver : cordeCollisionObject → SolverPtr) : cordeDynamicsWorld :=
  let w : cordeDynamicsWorld :=
    { m_collisionObjects := []
      m_broadphaseHandle := fun _ => none
      m_softBodySolver := softBodySolver
      m_ownsSolver := false
      m_cordeObjects := []
      bodySolver := bodySolver
      trace := [] }
  if w.m_softBodySolver = 0 then
    { w with
      m_softBodySolver := ptr
      m_ownsSolver := true
      trace := w.trace ++ [Event.defaultCordeSolver_new ptr] }
  else
    w

/-- Destructor `~cordeDynamicsWorld()`: the call log once the body has run. -/
def delete (w : cordeDynamicsWorld) : List Event :=
  if w.m_ownsSolver then
    w.trace ++ [Event.cordeSolver_delete w.m_softBodySolver,
                Event.btAlignedFree w.m_softBodySolver]
  else
    w.trace

/-- Method `predictUnconstraintMotion(timeStep)`. -/
def predictUnconstraintMotion (w : cordeDynamicsWorld) (timeStep : btScalar) :
    cordeDynamicsWorld :=
  let w := w.record [Event.btDiscreteDynamicsWorld_predictUnconstraintMotion timeStep]
  w.record [Event.predictMotion w.m_softBodySolver timeStep]

/-- Host full step `btDiscreteDynamicsWorld::internalSingleStepSimulation(timeStep)`.
The host world is Bullet's and outside these sources.  The call site documents that it
"Includes predictUnconstraintMotion": that is the virtual hook which this class
overrides, so the call is logged and the override runs inside it.  The rest of the host
step (collision detection, rigid constraint solving, integration) makes no call that
is logged here. -/
def btDiscreteDynamicsWorld_internalSingleStepSimulation (w : cordeDynamicsWorld)
    (timeStep : btScalar) : cordeDynamicsWorld :=
  let w := w.record [Event.btDiscreteDynamicsWorld_internalSingleStepSimulation timeStep]
  w.predictUnconstraintMotion timeStep

/-- Bullet's `btAssert(x)` with assertions compiled in: the run stops when `x` is
false.  (Without them the macro expands to nothing.) -/
def btAssert (x : Bool) (w : cordeDynamicsWorld) : Option cordeDynamicsWorld :=
  if x then some w else none

/-- A string literal used as a condition: it decays to a pointer to its first
character, which is never null. -/
def stringLiteralAsCondition (_literal : String) : Bool :=
  true

/-- Method `solveSoftBodiesConstraints(timeStep)`. -/
def solveSoftBodiesConstraints (mem : SolverMemory) (w : cordeDynamicsWorld)
    (timeStep : btScalar) : cordeDynamicsWorld :=
  let timeScale := (mem w.m_softBodySolver).getTimeScale w.trace
  w.record [Event.solveConstraints w.m_softBodySolver (timeStep * timeScale)]

/-- The self-collision loop of `internalSingleStepSimulation`:
`for i in 0 .. m_cordeObjects.size()-1: psb = m_cordeObjects[i]; psb->defaultCollisionHandler(psb)`. -/
def selfCollisions (w : cordeDynamicsWorld) : cordeDynamicsWorld :=
  w.m_cordeObjects.foldl (fun w psb => w.record [Event.defaultCollisionHandler psb psb]) w

/-- Method `internalSingleStepSimulation(timeStep)`; `none` is an aborted run.
`getSoftBodyArray()` (cordeDynamicsWorld.h) is read as the accessor of
`m_cordeObjects`. -/
def internalSingleStepSimulation (mem : SolverMemory) (w : cordeDynamicsWorld)
    (timeStep : btScalar) : Option cordeDynamicsWorld := do
  -- Let the solver grab the soft bodies and if necessary optimize for it
  let w := w.record [Event.optimize w.m_softBodySolver w.m_cordeObjects]
  let initialized := (mem w.m_softBodySolver).checkInitialized w.trace
  let w := w.record [Event.checkInitialized w.m_softBodySolver]
  let w ← if !initialized then
      btAssert (stringLiteralAsCondition "Solver initialization failed\n") w
    else
      some w
  -- Includes predictUnconstraintMotion
  let w := w.btDiscreteDynamicsWorld_internalSingleStepSimulation timeStep
  -- solve soft bodies constraints (anchors and such)
  let w := solveSoftBodiesConstraints mem w timeStep
  -- self collisions
  let w := w.selfCollisions
  -- update soft bodies
  pure (w.record [Event.updateSoftBodies w.m_softBodySolver timeStep])

/-- Modelled from the spec: `cordeCollisionObject::setSolver` (cordeCollisionObject.h is
not among the sources): the body exposes a settable solver back-reference. -/
def setSolver (w : cordeDynamicsWorld) (body : cordeCollisionObject) (solver : SolverPtr) :
    cordeDynamicsWorld :=
  { w with
    bodySolver := fun b => if b = body then solver else w.bodySolver b
    trace := w.trace ++ [Event.setSolver body solver] }

/-- Modelled from the spec: the host's `btCollisionWorld::addCollisionObject(object,
group, mask)` (Bullet, outside these sources): registers the object as a generic
collidable object with the given filter group and mask. -/
def btCollisionWorld_addCollisionObject (w : cordeDynamicsWorld) (object : btCollisionObject)
    (collisionFilterGroup collisionFilterMask : Int) : cordeDynamicsWorld :=
  { w with
    m_collisionObjects := btAlignedObjectArray.push_back w.m_collisionObjects object
    m_broadphaseHandle := fun o =>
      if o = object then some (collisionFilterGroup, collisionFilterMask)
      else w.m_broadphaseHandle o
    trace := w.trace ++
      [Event.btCollisionWorld_addCollisionObject object collisionFilterGroup collisionFilterMask] }

/-- Modelled from the spec: the host's `btCollisionWorld::removeCollisionObject(object)`
(Bullet, outside these sources): unregisters the object as a generic collidable object;
its broadphase registration is dropped and it is removed from the host's array. -/
def btCollisionWorld_removeCollisionObject (w : cordeDynamicsWorld)
    (object : btCollisionObject) : cordeDynamicsWorld :=
  { w with
    m_collisionObjects := btAlignedObjectArray.remove w.m_collisionObjects object
    m_broadphaseHandle := fun o => if o = object then none else w.m_broadphaseHandle o
    trace := w.trace ++ [Event.btCollisionWorld_removeCollisionObject object] }

/-- Modelled from the spec: the host's generic removal
`btDiscreteDynamicsWorld::removeCollisionObject(object)` (Bullet, outside these sources):
the object leaves the host's array of collidable objects.  The filament array is not
the host's and is not touched. -/
def btDiscreteDynamicsWorld_removeCollisionObject (w : cordeDynamicsWorld)
    (object : btCollisionObject) : cordeDynamicsWorld :=
  { w with
    m_collisionObjects := btAlignedObjectArray.remove w.m_collisionObjects object
    m_broadphaseHandle := fun o => if o = object then none else w.m_broadphaseHandle o
    trace := w.trace ++ [Event.btDiscreteDynamicsWorld_removeCollisionObject object] }

/-- Method `addSoftBody(body, collisionFilterGroup, collisionFilterMask)`. -/
def addSoftBody (w : cordeDynamicsWorld) (body : cordeCollisionObject)
    (collisionFilterGroup collisionFilterMask : Int) : cordeDynamicsWorld :=
  let w := { w with m_cordeObjects := btAlignedObjectArray.push_back w.m_cordeObjects body }
  -- Set the soft body solver that will deal with this body to be the world's solver
  let w := w.setSolver body w.m_softBodySolver
  w.btCollisionWorld_addCollisionObject (btCollisionObject.corde body)
    collisionFilterGroup collisionFilterMask

/-- Method `removeSoftBody(body)`. -/
def removeSoftBody (w : cordeDynamicsWorld) (body : cordeCollisionObject) :
    cordeDynamicsWorld :=
  let w := { w with m_cordeObjects := btAlignedObjectArray.remove w.m_cordeObjects body }
  w.btCollisionWorld_removeCollisionObject (btCollisionObject.corde body)

/-- Method `removeCollisionObject(collisionObject)`. -/
def removeCollisionObject (w : cordeDynamicsWorld) (collisionObject : btCollisionObject) :
    cordeDynamicsWorld :=
  match cordeCollisionObject.upcast collisionObject with
  | some body => w.removeSoftBody body
  | none => w.btDiscreteDynamicsWorld_removeCollisionObject collisionObject

end cordeDynamicsWorld


/-! ## Scenario data -/

/-- Filament body A of the scenario. -/
def bodyA : cordeCollisionObject := ⟨1⟩

/-- Filament body B of the scenario. -/
def bodyB : cordeCollisionObject := ⟨2⟩

/-- A third filament body. -/
def bodyC : cordeCollisionObject := ⟨3⟩

/-- A solver that reports itself initialized and has time scale 1/2. -/
def halfScaleSolver : cordeSolver :=
  { checkInitialized := fun _ => true
    getTimeScale := fun _ => 1 / 2 }

/-- A solver whose `checkInitialized()` returns false, time scale 1/2. -/
def uninitializedSolver : cordeSolver :=
  { checkInitialized := fun _ => false
    getTimeScale := fun _ => 1 / 2 }

/-- Memory in which every solver address holds `halfScaleSolver`. -/
def scenarioMemory : SolverMemory := fun _ => halfScaleSolver

/-- Memory in which every solver address holds `uninitializedSolver`. -/
def uninitializedMemory : SolverMemory := fun _ => uninitializedSolver

/-- The scenario world: solver at address 100, bodies A then B registered, empty log. -/
def scenarioWorld : cordeDynamicsWorld :=
  { m_collisionObjects := [btCollisionObject.corde bodyA, btCollisionObject.corde bodyB]
    m_broadphaseHandle := fun o =>
      if o = btCollisionObject.corde bodyA ∨ o = btCollisionObject.corde bodyB then some (1, -1)
      else none
    m_softBodySolver := 100
    m_ownsSolver := false
    m_cordeObjects := [bodyA, bodyB]
    bodySolver := fun _ => 100
    trace := [] }

/-! ## Histories of registrations -/

namespace cordeDynamicsWorld

end cordeDynamicsWorld

namespace btAlignedObjectArray

variable {α : Type} [DecidableEq α]

theorem remove_of_not_mem {m_data : List α} {key : α} (h : key ∉ m_data) :
    remove m_data key = m_data := by
  simp [remove, findLinearSearch, List.indexOf_of_not_mem h]

theorem remove_last {xs : List α} {key : α} (h : key ∉ xs) :
    remove (xs ++ [key]) key = xs := by
  have hi : List.indexOf key (xs ++ [key]) = xs.length := by
    rw [List.indexOf_append_of_not_mem h]; simp
  simp [remove, findLinearSearch, hi, swap, pop_back]

end btAlignedObjectArray


/-! ## The world: facts -/

namespace cordeDynamicsWorld

@[simp]
theorem record_nil (w : cordeDynamicsWorld) : w.record [] = w := by
  simp [record]

theorem record_record (w : cordeDynamicsWorld) (es fs : List Event) :
    (w.record es).record fs = w.record (es ++ fs) := by
  simp [record]

theorem foldl_record (f : cordeCollisionObject → Event) (l : List cordeCollisionObject)
    (w : cordeDynamicsWorld) :
    l.foldl (fun w psb => w.record [f psb]) w = w.record (l.map f) := by
  induction l generalizing w with
  | nil => simp
  | cons b l ih => simp [ih, record_record]

theorem selfCollisions_eq (w : cordeDynamicsWorld) :
    w.selfCollisions
      = w.record (w.m_cordeObjects.map fun psb => Event.defaultCollisionHandler psb psb) := by
  unfold selfCollisions
  exact foldl_record (fun psb => Event.defaultCollisionHandler psb psb) w.m_cordeObjects w

/-- The calls of one step, whatever `checkInitialized()` answered. -/
theorem internalSingleStepSimulation_eq (mem : SolverMemory) (w : cordeDynamicsWorld)
    (timeStep : btScalar) :
    internalSingleStepSimulation mem w timeStep
      = some (w.record
          ([Event.optimize w.m_softBodySolver w.m_cordeObjects,
            Event.checkInitialized w.m_softBodySolver,
            Event.btDiscreteDynamicsWorld_internalSingleStepSimulation timeStep,
            Event.btDiscreteDynamicsWorld_predictUnconstraintMotion timeStep,
            Event.predictMotion w.m_softBodySolver timeStep,
            Event.solveConstraints w.m_softBodySolver
              (timeStep * (mem w.m_softBodySolver).getTimeScale
                (w.trace ++
                  [Event.optimize w.m_softBodySolver w.m_cordeObjects,
                   Event.checkInitialized w.m_softBodySolver,
                   Event.btDiscreteDynamicsWorld_internalSingleStepSimulation timeStep,
                   Event.btDiscreteDynamicsWorld_predictUnconstraintMotion timeStep,
                   Event.predictMotion w.m_softBodySolver timeStep]))]
           ++ w.m_cordeObjects.map (fun b => Event.defaultCollisionHandler b b)
           ++ [Event.updateSoftBodies w.m_softBodySolver timeStep])) := by
  unfold internalSingleStepSimulation
  cases hinit : (mem w.m_softBodySolver).checkInitialized
      (w.trace ++ [Event.optimize w.m_softBodySolver w.m_cordeObjects]) <;>
    simp [record, hinit, btAssert, stringLiteralAsCondition, selfCollisions_eq,
      solveSoftBodiesConstraints, btDiscreteDynamicsWorld_internalSingleStepSimulation,
      predictUnconstraintMotion]

end cordeDynamicsWorld


namespace cordeDynamicsWorld

end cordeDynamicsWorld

/-! ## Step sequencing -/

open cordeDynamicsWorld

/-- C2, the code at the failing input: with a solver whose `checkInitialized()`
returns false the step of the scenario world is not aborted; the host's full step,
`solveConstraints`, both self-collision calls and `updateSoftBodies` are all made. -/
theorem C2_uninitialized_step_runs_on :
    (internalSingleStepSimulation uninitializedMemory scenarioWorld (1 / 50)).map
        (fun w => w.trace)
      = some [Event.optimize 100 [bodyA, bodyB],
              Event.checkInitialized 100,
              Event.btDiscreteDynamicsWorld_internalSingleStepSimulation (1 / 50),
              Event.btDiscreteDynamicsWorld_predictUnconstraintMotion (1 / 50),
              Event.predictMotion 100 (1 / 50),
              Event.solveConstraints 100 (1 / 100),
              Event.defaultCollisionHandler bodyA bodyA,
              Event.defaultCollisionHandler bodyB bodyB,
              Event.updateSoftBodies 100 (1 / 50)]
    ∧ (uninitializedMemory scenarioWorld.m_softBodySolver).checkInitialized
        (scenarioWorld.trace
          ++ [Event.optimize scenarioWorld.m_softBodySolver scenarioWorld.m_cordeObjects])
      = false := by
  refine ⟨?_, rfl⟩
  rw [internalSingleStepSimulation_eq]
  simp [record, scenarioWorld, uninitializedMemory, uninitializedSolver]
  norm_num

/-- C3: for every timestep `dt` and every time scale `s` that the world's solver
reports when the step reads it, a step calls `solveConstraints` exactly once, with
`dt * s`, and `updateSoftBodies` exactly once, last, with the unscaled `dt`; for
`dt = 1/50` and `s = 1/2` these are `solveConstraints(1/100)` and
`updateSoftBodies(1/50)`. -/
theorem C3_solveConstraints_scaled (mem : SolverMemory) (w : cordeDynamicsWorld)
    (dt s : btScalar)
    (hs : (mem w.m_softBodySolver).getTimeScale
      (w.trace ++
        [Event.optimize w.m_softBodySolver w.m_cordeObjects,
         Event.checkInitialized w.m_softBodySolver,
         Event.btDiscreteDynamicsWorld_internalSingleStepSimulation dt,
         Event.btDiscreteDynamicsWorld_predictUnconstraintMotion dt,
         Event.predictMotion w.m_softBodySolver dt]) = s) :
    ∃ w' before after,
      internalSingleStepSimulation mem w dt = some w'
      ∧ w'.trace = w.trace ++ before
          ++ [Event.solveConstraints w.m_softBodySolver (dt * s)]
          ++ after ++ [Event.updateSoftBodies w.m_softBodySolver dt]
      ∧ (∀ e ∈ before ++ after, ∀ p x,
          e ≠ Event.solveConstraints p x ∧ e ≠ Event.updateSoftBodies p x)
      ∧ (dt = 1 / 50 → s = 1 / 2 →
          Event.solveConstraints w.m_softBodySolver (1 / 100) ∈ w'.trace
          ∧ Event.updateSoftBodies w.m_softBodySolver (1 / 50) ∈ w'.trace) := by
  refine ⟨_, [Event.optimize w.m_softBodySolver w.m_cordeObjects,
         Event.checkInitialized w.m_softBodySolver,
         Event.btDiscreteDynamicsWorld_internalSingleStepSimulation dt,
         Event.btDiscreteDynamicsWorld_predictUnconstraintMotion dt,
         Event.predictMotion w.m_softBodySolver dt],
      w.m_cordeObjects.map (fun b => Event.defaultCollisionHandler b b),
      internalSingleStepSimulation_eq mem w dt, ?_, ?_, ?_⟩
  · simp [record, hs]
  · intro e he p x
    simp only [List.mem_append, List.mem_cons, List.mem_singleton, List.mem_map,
      List.not_mem_nil, or_false] at he
    rcases he with (he | he | he | he | he) | ⟨b, _, he⟩ <;> subst he <;> simp
  · intro hdt hs'
    subst hdt
    rw [hs'] at hs
    simp only [record, hs]
    norm_num

/-- C3, instance: the scenario world (time scale 1/2), timestep 1/50. -/
theorem C3_solveConstraints_scaled_witness :
    ∃ w', internalSingleStepSimulation scenarioMemory scenarioWorld (1 / 50) = some w'
      ∧ Event.solveConstraints 100 (1 / 100) ∈ w'.trace
      ∧ Event.updateSoftBodies 100 (1 / 50) ∈ w'.trace := by
  obtain ⟨w', _, _, hstep, _, _, hconcrete⟩ :=
    C3_solveConstraints_scaled scenarioMemory scenarioWorld (1 / 50) (1 / 2) rfl
  exact ⟨w', hstep, hconcrete rfl rfl⟩

/-- C10: for every world and timestep, `predictUnconstraintMotion(dt)` first runs the
host's motion prediction with `dt`, then calls the solver's `predictMotion` once with
the same `dt`, and changes nothing but the call log: the registry, the solver
reference and the ownership flag stay as they were. -/
theorem C10_predictUnconstraintMotion (w : cordeDynamicsWorld) (dt : btScalar) :
    (w.predictUnconstraintMotion dt).trace
        = w.trace ++ [Event.btDiscreteDynamicsWorld_predictUnconstraintMotion dt,
                      Event.predictMotion w.m_softBodySolver dt]
    ∧ (w.predictUnconstraintMotion dt).m_cordeObjects = w.m_cordeObjects
    ∧ (w.predictUnconstraintMotion dt).m_softBodySolver = w.m_softBodySolver
    ∧ (w.predictUnconstraintMotion dt).m_ownsSolver = w.m_ownsSolver := by
  simp [predictUnconstraintMotion, record]


/-! ## Registry and dispatch -/

/-- C4: for every world, body, filter group and mask, after `addSoftBody(b, g, m)` the
registry is the old registry with `b` appended last, `b`'s solver back-reference is
the world's solver (which is unchanged), and `b` is in the host's array of collidable
objects, appended last, registered with exactly group `g` and mask `m`. -/
theorem C4_addSoftBody (w : cordeDynamicsWorld) (b : cordeCollisionObject) (g m : Int) :
    (w.addSoftBody b g m).m_cordeObjects = w.m_cordeObjects ++ [b]
    ∧ (w.addSoftBody b g m).bodySolver b = (w.addSoftBody b g m).m_softBodySolver
    ∧ (w.addSoftBody b g m).m_softBodySolver = w.m_softBodySolver
    ∧ (w.addSoftBody b g m).m_collisionObjects
        = w.m_collisionObjects ++ [btCollisionObject.corde b]
    ∧ (w.addSoftBody b g m).m_broadphaseHandle (btCollisionObject.corde b) = some (g, m) := by
  simp [addSoftBody, setSolver, btCollisionWorld_addCollisionObject,
    btAlignedObjectArray.push_back]

/-- C5 as stated fails: in the scenario world body A is registered already; after
`addSoftBody(A)` then `removeSoftBody(A)` it is still in the registry and still in the
host's array, because the removal takes out one entry only. -/
theorem C5_already_registered_counterexample :
    ¬ (bodyA ∉ ((scenarioWorld.addSoftBody bodyA 1 (-1)).removeSoftBody bodyA).m_cordeObjects
       ∧ btCollisionObject.corde bodyA
          ∉ ((scenarioWorld.addSoftBody bodyA 1 (-1)).removeSoftBody bodyA).m_collisionObjects) := by
  have hreg : ((scenarioWorld.addSoftBody bodyA 1 (-1)).removeSoftBody bodyA).m_cordeObjects
      = [bodyA, bodyB] := by
    decide
  simp [hreg]

/-- C5 (amended): for every world in which `b` is neither in the registry nor in the
host's array, after `addSoftBody(b)` then `removeSoftBody(b)` the body is absent from
both (both are as they were before the addition, and `b` has no broadphase
registration); after `addSoftBody(b)` alone it is present in both. -/
theorem C5_add_then_remove (w : cordeDynamicsWorld) (b : cordeCollisionObject) (g m : Int)
    (hreg : b ∉ w.m_cordeObjects)
    (hhost : btCollisionObject.corde b ∉ w.m_collisionObjects) :
    (b ∉ ((w.addSoftBody b g m).removeSoftBody b).m_cordeObjects
      ∧ btCollisionObject.corde b ∉ ((w.addSoftBody b g m).removeSoftBody b).m_collisionObjects)
    ∧ ((w.addSoftBody b g m).removeSoftBody b).m_cordeObjects = w.m_cordeObjects
    ∧ ((w.addSoftBody b g m).removeSoftBody b).m_collisionObjects = w.m_collisionObjects
    ∧ ((w.addSoftBody b g m).removeSoftBody b).m_broadphaseHandle (btCollisionObject.corde b)
        = none
    ∧ (b ∈ (w.addSoftBody b g m).m_cordeObjects
      ∧ btCollisionObject.corde b ∈ (w.addSoftBody b g m).m_collisionObjects) := by
  have h1 : ((w.addSoftBody b g m).removeSoftBody b).m_cordeObjects = w.m_cordeObjects := by
    simp [addSoftBody, removeSoftBody, setSolver, btCollisionWorld_addCollisionObject,
      btCollisionWorld_removeCollisionObject, btAlignedObjectArray.push_back,
      btAlignedObjectArray.remove_last hreg]
  have h2 : ((w.addSoftBody b g m).removeSoftBody b).m_collisionObjects
      = w.m_collisionObjects := by
    simp [addSoftBody, removeSoftBody, setSolver, btCollisionWorld_addCollisionObject,
      btCollisionWorld_removeCollisionObject, btAlignedObjectArray.push_back,
      btAlignedObjectArray.remove_last hhost]
  refine ⟨⟨by rw [h1]; exact hreg, by rw [h2]; exact hhost⟩, h1, h2, ?_, ?_⟩
  · simp [removeSoftBody, btCollisionWorld_removeCollisionObject]
  · simp [addSoftBody, setSolver, btCollisionWorld_addCollisionObject,
      btAlignedObjectArray.push_back]

/-- C5 (amended), instance: body C, which the scenario world does not hold. -/
theorem C5_add_then_remove_witness :
    (bodyC ∉ scenarioWorld.m_cordeObjects
      ∧ btCollisionObject.corde bodyC ∉ scenarioWorld.m_collisionObjects)
    ∧ ((scenarioWorld.addSoftBody bodyC 1 (-1)).removeSoftBody bodyC).m_cordeObjects
        = [bodyA, bodyB]
    ∧ bodyC ∈ (scenarioWorld.addSoftBody bodyC 1 (-1)).m_cordeObjects := by
  have hreg : bodyC ∉ scenarioWorld.m_cordeObjects := by decide
  have hhost : btCollisionObject.corde bodyC ∉ scenarioWorld.m_collisionObjects := by decide
  have h := C5_add_then_remove scenarioWorld bodyC 1 (-1) hreg hhost
  exact ⟨⟨hreg, hhost⟩, h.2.1, h.2.2.2.2.1⟩

/-- C6: for every world and every body `b` not in the registry, `removeSoftBody(b)`
returns normally and leaves the registry (contents and order), the solver reference
and the ownership flag as they were. -/
theorem C6_remove_absent (w : cordeDynamicsWorld) (b : cordeCollisionObject)
    (habsent : b ∉ w.m_cordeObjects) :
    (w.removeSoftBody b).m_cordeObjects = w.m_cordeObjects
    ∧ (w.removeSoftBody b).m_softBodySolver = w.m_softBodySolver
    ∧ (w.removeSoftBody b).m_ownsSolver = w.m_ownsSolver := by
  simp [removeSoftBody, btCollisionWorld_removeCollisionObject,
    btAlignedObjectArray.remove_of_not_mem habsent]

/-- C6, instance: removing body C from the scenario world, which holds A and B. -/
theorem C6_remove_absent_witness :
    bodyC ∉ scenarioWorld.m_cordeObjects
    ∧ (scenarioWorld.removeSoftBody bodyC).m_cordeObjects = [bodyA, bodyB]
    ∧ (scenarioWorld.removeSoftBody bodyC).m_softBodySolver = 100
    ∧ (scenarioWorld.removeSoftBody bodyC).m_ownsSolver = false :=
  ⟨by decide, C6_remove_absent scenarioWorld bodyC (by decide)⟩

/-- C7: for every world and collision object `o`, `removeCollisionObject(o)` is
`removeSoftBody(b)` when the type test of `upcast` identifies `o` as the filament
body `b`; otherwise it is the host's generic `removeCollisionObject(o)`, and the
filament registry is left as it was. -/
theorem C7_removeCollisionObject_dispatch (w : cordeDynamicsWorld) (o : btCollisionObject) :
    match cordeCollisionObject.upcast o with
    | some b => w.removeCollisionObject o = w.removeSoftBody b
    | none =>
        w.removeCollisionObject o = w.btDiscreteDynamicsWorld_removeCollisionObject o
        ∧ (w.removeCollisionObject o).m_cordeObjects = w.m_cordeObjects := by
  cases o <;>
    simp [removeCollisionObject, cordeCollisionObject.upcast,
      btDiscreteDynamicsWorld_removeCollisionObject]

/-- C8: when the allocator hands out storage (`ptr` not null): constructing without
a solver (null argument) constructs exactly one default solver, at `ptr`, makes it the
world's solver and sets the ownership flag, and destroying the world destroys that
solver exactly once and frees it; constructing with a solver keeps that solver, leaves
the flag false, constructs nothing, and destroying the world makes no call at all.
The flag is true exactly when no solver was supplied, and the world's solver is not
null. -/
theorem C8_solver_ownership (softBodySolver ptr : SolverPtr)
    (bodySolver : cordeCollisionObject → SolverPtr) (hptr : ptr ≠ 0) :
    (softBodySolver = 0 →
        (new softBodySolver ptr bodySolver).m_softBodySolver = ptr
        ∧ (new softBodySolver ptr bodySolver).m_ownsSolver = true
        ∧ (new softBodySolver ptr bodySolver).trace = [Event.defaultCordeSolver_new ptr]
        ∧ (new softBodySolver ptr bodySolver).delete
            = [Event.defaultCordeSolver_new ptr, Event.cordeSolver_delete ptr,
               Event.btAlignedFree ptr])
    ∧ (softBodySolver ≠ 0 →
        (new softBodySolver ptr bodySolver).m_softBodySolver = softBodySolver
        ∧ (new softBodySolver ptr bodySolver).m_ownsSolver = false
        ∧ (new softBodySolver ptr bodySolver).trace = []
        ∧ (new softBodySolver ptr bodySolver).delete = [])
    ∧ ((new softBodySolver ptr bodySolver).m_ownsSolver = true ↔ softBodySolver = 0)
    ∧ (new softBodySolver ptr bodySolver).m_softBodySolver ≠ 0 := by
  by_cases h : softBodySolver = 0
  · simp [new, delete, h, hptr]
  · simp [new, delete, h]

/-- C8, instance: storage at address 7; no solver supplied, and the caller's solver
at address 100 supplied. -/
theorem C8_solver_ownership_witness :
    (7 : SolverPtr) ≠ 0
    ∧ (new 0 7 (fun _ => 0)).delete
        = [Event.defaultCordeSolver_new 7, Event.cordeSolver_delete 7, Event.btAlignedFree 7]
    ∧ (new 100 7 (fun _ => 0)).delete = []
    ∧ (new 100 7 (fun _ => 0)).m_softBodySolver = 100 :=
  ⟨by decide,
   ((C8_solver_ownership 0 7 (fun _ => 0) (by decide)).1 rfl).2.2.2,
   ((C8_solver_ownership 100 7 (fun _ => 0) (by decide)).2.1 (by decide)).2.2.2,
   ((C8_solver_ownership 100 7 (fun _ => 0) (by decide)).2.1 (by decide)).1⟩


/-! ## Order of the self-collision pass -/

end Corde
